import Mathlib

/-
  Verification development for the caojianfei/parser repository, a Go SDK that
  normalizes short-video metadata from several upstream scraping APIs
  (Douyin, Kuaishou, Xiaohongshu) into one unified schema behind a parser
  registry. The definitions below are a shallow embedding of the Go source:
  types.go (the unified schema), sdk.go (registry and orchestrator),
  parsers/douyin.go, parsers/kuaishou.go and parsers/xiaohongshu.go
  (the per-platform normalization pipelines). Network calls are modelled by
  passing the already-decoded upstream JSON payload (or, for the Douyin
  short-link resolver, an oracle function) as an argument; everything else is
  translated line by line from the source.

  Modelling conventions:
  - Upstream payloads are modelled as an inductive JSON value type; the gjson
    accessor semantics (Get, String, Int, Array, Exists, IsArray) are
    reproduced by the jget / jstring / jint / jarrayElems / jexists /
    jisArray functions. JSON numbers are modelled as integers (the payload
    fields read numerically by the adapters are integer counters); the raw
    text gjson returns for arrays and objects is reproduced by a canonical
    renderer (without string escaping).
  - go time.Time is modelled by the GoTime record of wall-clock fields; the
    zero value of time.Time is goZeroTime. time.Now() is modelled by an
    explicit parameter passed to the functions that call it.
  - strconv.ParseFloat is modelled exactly, as a decimal mantissa and
    exponent, for finite decimal forms (optionally signed, with optional
    fraction and exponent); the inf and nan spellings, hexadecimal floats and
    the overflow bound of the binary64 format are not modelled and count as
    parse failures. For every concrete input appearing in the claims the
    exact decimal computation agrees with the binary64 computation of the Go
    code.
  - int64 arithmetic is modelled on unbounded Int; overflow does not occur on
    any input appearing in the claims.
-/

namespace VideoParser

/-! ### JSON values (the shape gjson exposes to the adapters) -/

/-- A decoded JSON value. Upstream response bodies and the gjson results the
adapters read are modelled as values of this type. -/
inductive JVal where
  | jnull : JVal
  | jbool : Bool → JVal
  | jnum : Int → JVal
  | jstr : String → JVal
  | jarr : List JVal → JVal
  | jobj : List (String × JVal) → JVal

/-- Key lookup among the fields of a JSON object (first binding wins, as in
gjson path lookup). -/
def lookupField : List (String × JVal) → String → Option JVal
  | [], _ => none
  | (k, v) :: rest, key => if k = key then some v else lookupField rest key

/-- Models gjson Result.Get with a plain key path: a lookup in an object,
non-existent on every other kind of value. `none` is the non-existent result. -/
def jget (j : JVal) (key : String) : Option JVal :=
  match j with
  | .jobj fields => lookupField fields key
  | _ => none

mutual
/-- Canonical rendering of a JSON value, standing in for the raw source text
gjson keeps for arrays and objects (strings are rendered without escaping). -/
def jrender : JVal → String
  | .jnull => "null"
  | .jbool true => "true"
  | .jbool false => "false"
  | .jnum n => toString n
  | .jstr s => "\"" ++ s ++ "\""
  | .jarr xs => "[" ++ jrenderArr xs ++ "]"
  | .jobj fs => "\x7b" ++ jrenderObj fs ++ "\x7d"

/-- Comma-separated rendering of array elements. -/
def jrenderArr : List JVal → String
  | [] => ""
  | [v] => jrender v
  | v :: w :: rest => jrender v ++ "," ++ jrenderArr (w :: rest)

/-- Comma-separated rendering of object members. -/
def jrenderObj : List (String × JVal) → String
  | [] => ""
  | [(k, v)] => "\"" ++ k ++ "\":" ++ jrender v
  | (k, v) :: m :: rest => "\"" ++ k ++ "\":" ++ jrender v ++ "," ++ jrenderObj (m :: rest)
end

/-- Models gjson Result.String() on a present value: empty for null, the
literal words for booleans, decimal text for numbers, the string itself for
strings, and the raw text for arrays and objects. -/
def jstringV : JVal → String
  | .jnull => ""
  | .jbool true => "true"
  | .jbool false => "false"
  | .jnum n => toString n
  | .jstr s => s
  | v => jrender v

/-- Models gjson Result.String(): a missing result renders as the empty
string. -/
def jstring : Option JVal → String
  | none => ""
  | some v => jstringV v

/-- Digit value of a decimal digit character. -/
def digitVal (c : Char) : Nat := c.toNat - '0'.toNat

/-- Decimal value of a digit list (most significant first). -/
def natOfDigits (ds : List Char) : Nat :=
  ds.foldl (fun acc c => acc * 10 + digitVal c) 0

/-- Models the internal gjson parseInt helper used by Result.Int() on string
results: an optional minus sign followed by decimal digits, anything else is
rejected (gjson then yields 0). The int64 wraparound of the Go loop is not
modelled. -/
def gjsonParseInt (s : String) : Option Int :=
  match s.toList with
  | '-' :: r =>
      if r ≠ [] ∧ r.all Char.isDigit then some (-(natOfDigits r : Int)) else none
  | l =>
      if l ≠ [] ∧ l.all Char.isDigit then some ((natOfDigits l : Int)) else none

/-- Models gjson Result.Int(): 1 for true, the value for numbers, a best-effort
integer parse for strings, 0 in every other case (including non-existence). -/
def jint (o : Option JVal) : Int :=
  match o with
  | some (.jbool true) => 1
  | some (.jnum n) => n
  | some (.jstr s) =>
      match gjsonParseInt s with
      | some n => n
      | none => 0
  | _ => 0

/-- Models gjson Result.Exists(): true exactly when the path resolved to a
value (a present JSON null counts as existing). -/
def jexists (o : Option JVal) : Bool := o.isSome

/-- Models gjson Result.IsArray(). -/
def jisArray (o : Option JVal) : Bool :=
  match o with
  | some (.jarr _) => true
  | _ => false

/-- Models gjson Result.Array(): empty for a missing value or a present null,
the elements for an array, and a one-element list wrapping any other value. -/
def jarrayElems (o : Option JVal) : List JVal :=
  match o with
  | none => []
  | some .jnull => []
  | some (.jarr xs) => xs
  | some v => [v]

/-! ### Go string helpers used by the adapters -/

/-- Whether the first list is a prefix of the second (over characters). -/
def startsWithL : List Char → List Char → Bool
  | [], _ => true
  | _ :: _, [] => false
  | a :: as, b :: bs => a = b && startsWithL as bs

/-- Whether the first list occurs contiguously inside the second. -/
def containsL (needle : List Char) : List Char → Bool
  | [] => startsWithL needle []
  | b :: bs => startsWithL needle (b :: bs) || containsL needle bs

/-- Models strings.Contains. -/
def strContains (s sub : String) : Bool := containsL sub.toList s.toList

/-- Models unicode.IsSpace on the whitespace characters relevant here (the
Latin-1 range; the higher Unicode space code points do not occur in the
payload fields the adapters split). -/
def goIsSpace (c : Char) : Bool :=
  c = ' ' || c = '\t' || c = '\n' || c = '\x0b' || c = '\x0c' || c = '\r' ||
  c = '\x85' || c = '\xa0'

/-- Models strings.Fields: split around runs of whitespace; no empty fields. -/
def goFields (s : String) : List String :=
  (s.split goIsSpace).filter (fun w => w ≠ "")

/-- Models strings.Replace(s, single-character pattern, "", -1): every
occurrence of the character is removed. -/
def removeChar (s : String) (c : Char) : String :=
  String.mk (s.toList.filter (fun d => d ≠ c))

/-- Models strconv.ParseInt(s, 10, 64): an optional sign followed by decimal
digits, rejecting values outside the int64 range. -/
def goParseInt (s : String) : Option Int :=
  match s.toList with
  | '+' :: r =>
      if r ≠ [] ∧ r.all Char.isDigit ∧ natOfDigits r ≤ 9223372036854775807 then
        some ((natOfDigits r : Int))
      else none
  | '-' :: r =>
      if r ≠ [] ∧ r.all Char.isDigit ∧ natOfDigits r ≤ 9223372036854775808 then
        some (-(natOfDigits r : Int))
      else none
  | l =>
      if l ≠ [] ∧ l.all Char.isDigit ∧ natOfDigits l ≤ 9223372036854775807 then
        some ((natOfDigits l : Int))
      else none

/-- The exponent suffix of a decimal float: after the e marker, an optional
sign and at least one digit, which must end the input. -/
def goParseFloatExp (r : List Char) : Option Int :=
  match r with
  | '+' :: rr =>
      let epr := rr.span Char.isDigit
      if epr.1 ≠ [] ∧ epr.2 = [] then some ((natOfDigits epr.1 : Int)) else none
  | '-' :: rr =>
      let epr := rr.span Char.isDigit
      if epr.1 ≠ [] ∧ epr.2 = [] then some (-(natOfDigits epr.1 : Int)) else none
  | rr =>
      let epr := rr.span Char.isDigit
      if epr.1 ≠ [] ∧ epr.2 = [] then some ((natOfDigits epr.1 : Int)) else none

/-- Unsigned decimal part of strconv.ParseFloat: digits, an optional fraction,
an optional exponent. The exact value is returned as a mantissa m and a
decimal exponent d standing for m times 10 to the d. -/
def goParseFloatCore (l : List Char) : Option (Int × Int) :=
  let ipr := l.span Char.isDigit
  let fpr : List Char × List Char :=
    match ipr.2 with
    | '.' :: r => r.span Char.isDigit
    | _ => ([], ipr.2)
  if ipr.1 = [] ∧ fpr.1 = [] then none
  else
    let m : Int := (natOfDigits (ipr.1 ++ fpr.1) : Int)
    let d : Int := -(fpr.1.length : Int)
    match fpr.2 with
    | [] => some (m, d)
    | 'e' :: r => (goParseFloatExp r).map (fun e => (m, d + e))
    | 'E' :: r => (goParseFloatExp r).map (fun e => (m, d + e))
    | _ => none

/-- Models strconv.ParseFloat(s, 64) on finite decimal inputs, exactly (see
the conventions at the top of the file): the result (m, d) stands for
m times 10 to the d. -/
def goParseFloat (s : String) : Option (Int × Int) :=
  match s.toList with
  | [] => none
  | '+' :: r => goParseFloatCore r
  | '-' :: r => (goParseFloatCore r).map (fun p => (-p.1, p.2))
  | l => goParseFloatCore l

/-- The value (m times 10 to the d) times 10000, truncated toward zero as the
Go conversion from float64 to int64 truncates. -/
def scaleTrunc10000 (m : Int) (d : Int) : Int :=
  if 0 ≤ d + 4 then m * 10 ^ (d + 4).toNat
  else if 0 ≤ m then ((m.natAbs / 10 ^ (-(d + 4)).toNat : Nat) : Int)
  else -((m.natAbs / 10 ^ (-(d + 4)).toNat : Nat) : Int)

/-! ### Go time values and the layouts the adapters parse

The adapters call time.Parse with the reference layouts
"2006-01-02 15:04:05" (Douyin), "2006-01-02_15:04:05" (Kuaishou) and
"2006-01-02 15:04:05", "2006-01-02T15:04:05Z", "2006-01-02" (Xiaohongshu).
In each of these layouts the year is four fixed digits, month, day, minute and
second are two fixed digits, the hour accepts one or two digits, the remaining
characters are literals (the trailing Z included, since no numeric zone
follows it in the layout string), and after the seconds Go accepts an optional
fractional part introduced by a period or comma. Parsed fields are range
checked, the day against the month length of the (Gregorian) year. -/

/-- Wall-clock fields of a go time.Time value (the zone is always UTC in the
layouts above, so it is omitted). -/
structure GoTime where
  year : Nat
  month : Nat
  day : Nat
  hour : Nat
  minute : Nat
  second : Nat
deriving DecidableEq, Repr

/-- The zero value of go time.Time: midnight UTC, January 1 of year 1. -/
def goZeroTime : GoTime := ⟨1, 1, 1, 0, 0, 0⟩

/-- Read exactly two decimal digits. -/
def take2 : List Char → Option (Nat × List Char)
  | a :: b :: rest =>
      if a.isDigit && b.isDigit then some (digitVal a * 10 + digitVal b, rest) else none
  | _ => none

/-- Read exactly four decimal digits. -/
def take4 : List Char → Option (Nat × List Char)
  | a :: b :: c :: d :: rest =>
      if a.isDigit && b.isDigit && c.isDigit && d.isDigit then
        some (((digitVal a * 10 + digitVal b) * 10 + digitVal c) * 10 + digitVal d, rest)
      else none
  | _ => none

/-- Read one or two decimal digits, greedily, as the non-fixed numeric fields
of a Go layout do. -/
def take1or2 : List Char → Option (Nat × List Char)
  | a :: b :: rest =>
      if a.isDigit then
        if b.isDigit then some (digitVal a * 10 + digitVal b, rest)
        else some (digitVal a, b :: rest)
      else none
  | [a] => if a.isDigit then some (digitVal a, []) else none
  | [] => none

/-- Consume one expected literal character. -/
def litChar (c : Char) : List Char → Option (List Char)
  | d :: rest => if d = c then some rest else none
  | [] => none

/-- After the seconds field Go consumes an optional fractional part: a period
or comma followed by at least one digit. -/
def skipFrac : List Char → List Char
  | c :: d :: rest =>
      if (c = '.' || c = ',') && d.isDigit then (d :: rest).dropWhile Char.isDigit
      else c :: d :: rest
  | l => l

/-- Gregorian leap year rule, as package time uses. -/
def leapYear (y : Nat) : Bool :=
  y % 4 = 0 && (y % 100 ≠ 0 || y % 400 = 0)

/-- Length of a month. -/
def daysInMonth (y m : Nat) : Nat :=
  if m = 2 then (if leapYear y then 29 else 28)
  else if m = 4 || m = 6 || m = 9 || m = 11 then 30
  else 31

/-- The range validation time.Parse applies to the parsed fields. -/
def validClock (y mo d h mi se : Nat) : Bool :=
  1 ≤ mo && mo ≤ 12 && 1 ≤ d && d ≤ daysInMonth y mo && h ≤ 23 && mi ≤ 59 && se ≤ 59

/-- Read the "2006-01-02" date part of a layout. -/
def parseYMD : List Char → Option (Nat × Nat × Nat × List Char) :=
  fun l =>
    match take4 l with
    | none => none
    | some (y, r1) =>
      match litChar '-' r1 with
      | none => none
      | some r2 =>
        match take2 r2 with
        | none => none
        | some (mo, r3) =>
          match litChar '-' r3 with
          | none => none
          | some r4 =>
            match take2 r4 with
            | none => none
            | some (d, r5) => some (y, mo, d, r5)

/-- Read the "15:04:05" clock part of a layout along with the optional
fractional seconds. -/
def parseHMS : List Char → Option (Nat × Nat × Nat × List Char) :=
  fun l =>
    match take1or2 l with
    | none => none
    | some (h, r1) =>
      match litChar ':' r1 with
      | none => none
      | some r2 =>
        match take2 r2 with
        | none => none
        | some (mi, r3) =>
          match litChar ':' r3 with
          | none => none
          | some r4 =>
            match take2 r4 with
            | none => none
            | some (se, r5) => some (h, mi, se, skipFrac r5)

/-- Models time.Parse for a layout of the form date, one literal separator,
clock, then the given literal tail (empty, or the single Z); the whole input
must be consumed. -/
def goTimeParseLayout (sep : Char) (trail : List Char) (s : String) : Option GoTime :=
  match parseYMD s.toList with
  | none => none
  | some (y, mo, d, r) =>
    match litChar sep r with
    | none => none
    | some r2 =>
      match parseHMS r2 with
      | none => none
      | some (h, mi, se, rest) =>
        if rest = trail ∧ validClock y mo d h mi se then some ⟨y, mo, d, h, mi, se⟩
        else none

/-- Models time.Parse with the date-only layout "2006-01-02". -/
def goTimeParseDate (s : String) : Option GoTime :=
  match parseYMD s.toList with
  | some (y, mo, d, []) =>
      if validClock y mo d 0 0 0 then some ⟨y, mo, d, 0, 0, 0⟩ else none
  | _ => none

/-! ### The unified schema (types.go) -/

/-- VideoType from types.go, the closed kind enumeration. -/
inductive VideoType where
  | video
  | image
  | live
  | unknown
deriving DecidableEq, Repr

/-- MediaType from types.go, the per-download media kind. -/
inductive MediaType where
  | video
  | image
  | gif
deriving DecidableEq, Repr

/-- DownloadItem from types.go. -/
structure DownloadItem where
  url : String
  type : MediaType
deriving DecidableEq, Repr

/-- AuthorInfo from types.go. -/
structure AuthorInfo where
  uid : String
  secUID : String
  uniqueID : String
  nickname : String
  avatar : String
  signature : String
  age : Int
deriving DecidableEq, Repr

/-- VideoStats from types.go. -/
structure VideoStats where
  playCount : Int
  likeCount : Int
  commentCount : Int
  shareCount : Int
  collectCount : Int
deriving DecidableEq, Repr

/-- MusicInfo from types.go. -/
structure MusicInfo where
  id : String
  title : String
  author : String
  url : String
deriving DecidableEq, Repr

/-- The values the adapters store in the open-ended Extra map (Go type
map[string]interface ...): strings, integers, or string lists. The Go map is
modelled as an association list in insertion order. -/
inductive ExtraVal where
  | s : String → ExtraVal
  | i : Int → ExtraVal
  | slist : List String → ExtraVal
deriving DecidableEq, Repr

/-- VideoInfo from types.go, the unified media record every adapter
produces. Platform is the underlying string of the Go Platform type. -/
structure VideoInfo where
  id : String
  title : String
  description : String
  type : VideoType
  platform : String
  url : String
  createTime : GoTime
  duration : String
  downloads : List DownloadItem
  coverURL : String
  width : Int
  height : Int
  author : AuthorInfo
  stats : VideoStats
  music : MusicInfo
  tags : List String
  extra : List (String × ExtraVal)
deriving DecidableEq, Repr

/-- ParseRequest from types.go. -/
structure ParseRequest where
  platform : String
  videoID : String
  url : String
  cookie : String
  proxy : String
  source : Bool
deriving DecidableEq, Repr

/-- ParseResponse from types.go did carry a pointer to the data; absence is
modelled by Option. -/
structure ParseResponse where
  success : Bool
  message : String
  data : Option VideoInfo
  error : String
  time : GoTime
deriving DecidableEq, Repr

/-! ### Douyin adapter (parsers/douyin.go) -/

/-- One step of the regular expression search of DouyinParser.ExtractVideoID:
at the current position, match "http", an optional "s", "://", the fixed
middle part of the pattern, then a non-empty greedy digit run (the capture
group). -/
def douyinTryAt (mid : List Char) (s : List Char) : Option String :=
  match startsWithL "http".toList s with
  | false => none
  | true =>
    let s1 := s.drop 4
    let s2 := match s1 with
      | 's' :: r => r
      | _ => s1
    match startsWithL ("://".toList ++ mid) s2 with
    | false => none
    | true =>
      let s3 := s2.drop (3 + mid.length)
      match s3 with
      | c :: _ => if c.isDigit then some (String.mk (s3.takeWhile Char.isDigit)) else none
      | [] => none

/-- Leftmost search for one pattern, as regexp FindStringSubmatch performs. -/
def douyinScan (mid : List Char) : List Char → Option String
  | [] => none
  | c :: rest =>
      match douyinTryAt mid (c :: rest) with
      | some id => some id
      | none => douyinScan mid rest

/-- DouyinParser.ExtractVideoID: try the pattern for www.douyin.com/video
URLs first, then the one for www.iesdouyin.com/share/video URLs; the captured
digit run is the video ID. `none` models the extraction error. -/
def douyinExtractVideoID (url : String) : Option String :=
  match douyinScan "www.douyin.com/video/".toList url.toList with
  | some id => some id
  | none => douyinScan "www.iesdouyin.com/share/video/".toList url.toList

/-- DouyinParser.ExtractVideoID with its error value (the Go function returns
the ID or an error describing the URL). -/
def douyinExtractVideoIDE (url : String) : Except String String :=
  match douyinExtractVideoID url with
  | some id => Except.ok id
  | none => Except.error ("无法从URL中提取视频ID: " ++ url)

/-- Outcome of the ID-determination phase of DouyinParser.ParseVideo
(steps 1 and 1a/1b of the source), together with which helper calls were
made. The upstream detail fetch that follows is network I/O outside the
embedding. -/
structure DouyinIDResult where
  idResult : Except String String
  resolveCalled : Bool
  extractCalled : Bool
deriving Repr

/-- The ID-determination phase of DouyinParser.ParseVideo. The short-link
resolve call (resolveShortURL, an upstream HTTP request) is modelled by the
resolve argument. -/
def douyinResolveVideoID (resolve : String → Except String String)
    (req : ParseRequest) : DouyinIDResult :=
  if req.url ≠ "" then
    if strContains req.url "v.douyin.com" then
      match resolve req.url with
      | Except.error e =>
          ⟨Except.error ("解析短链接失败: " ++ e), true, false⟩
      | Except.ok fullURL =>
          match douyinExtractVideoIDE fullURL with
          | Except.error e =>
              ⟨Except.error ("从完整URL提取视频ID失败: " ++ e), true, true⟩
          | Except.ok id => ⟨Except.ok id, true, true⟩
    else
      match douyinExtractVideoIDE req.url with
      | Except.error e => ⟨Except.error ("从URL提取视频ID失败: " ++ e), false, true⟩
      | Except.ok id => ⟨Except.ok id, false, true⟩
  else if req.videoID ≠ "" then
    ⟨Except.ok req.videoID, false, false⟩
  else
    ⟨Except.error "必须提供URL或VideoID", false, false⟩

/-- The work-type switch of DouyinParser.parseVideoData. -/
def douyinVideoType (t : String) : VideoType :=
  if t = "视频" then VideoType.video
  else if t = "图集" then VideoType.image
  else if t = "实况" then VideoType.live
  else VideoType.unknown

/-- The create-time block of DouyinParser.parseVideoData: the CreateTime field
keeps its zero value unless the create_time string is non-empty and parses
under the single layout. -/
def douyinCreateTime (s : String) : GoTime :=
  if s ≠ "" then
    match goTimeParseLayout ' ' [] s with
    | some t => t
    | none => goZeroTime
  else goZeroTime

/-- One entry of the Douyin downloads array: links containing douyinpic.com
are images, all others are videos. -/
def douyinDownloadItem (v : JVal) : DownloadItem :=
  if strContains (jstringV v) "douyinpic.com" then ⟨jstringV v, MediaType.image⟩
  else ⟨jstringV v, MediaType.video⟩

/-- The downloads block of DouyinParser.parseVideoData: an array is mapped
entry by entry (image-set works), otherwise a present non-empty value is a
single video link. -/
def douyinDownloadList (o : Option JVal) : List DownloadItem :=
  match o with
  | some (.jarr xs) => xs.map douyinDownloadItem
  | _ =>
      if jexists o ∧ jstring o ≠ "" then [⟨jstring o, MediaType.video⟩] else []

/-- DouyinParser.parseVideoData: the normalization of the data object of the
detail response into a VideoInfo. The Go function always returns a nil
error. The Platform field is left at its zero value, as in the source. -/
def douyinParseVideoData (data : JVal) : VideoInfo :=
  let desc := jstring (jget data "desc")
  { id := jstring (jget data "id")
    title := desc
    description := desc
    type := douyinVideoType (jstring (jget data "type"))
    platform := ""
    url := jstring (jget data "share_url")
    createTime := douyinCreateTime (jstring (jget data "create_time"))
    duration := jstring (jget data "duration")
    downloads := douyinDownloadList (jget data "downloads")
    coverURL := jstring (jget data "static_cover")
    width := jint (jget data "width")
    height := jint (jget data "height")
    author :=
      { uid := jstring (jget data "uid")
        secUID := jstring (jget data "sec_uid")
        uniqueID := jstring (jget data "unique_id")
        nickname := jstring (jget data "nickname")
        avatar := ""
        signature := jstring (jget data "signature")
        age := jint (jget data "user_age") }
    stats :=
      { playCount := jint (jget data "play_count")
        likeCount := jint (jget data "digg_count")
        commentCount := jint (jget data "comment_count")
        shareCount := jint (jget data "share_count")
        collectCount := jint (jget data "collect_count") }
    music :=
      { id := ""
        title := jstring (jget data "music_title")
        author := jstring (jget data "music_author")
        url := jstring (jget data "music_url") }
    tags := (jarrayElems (jget data "text_extra")).map jstringV ++
            (jarrayElems (jget data "tag")).map jstringV
    extra :=
      [("collection_time", ExtraVal.s (jstring (jget data "collection_time"))),
       ("create_timestamp", ExtraVal.i (jint (jget data "create_timestamp"))),
       ("uri", ExtraVal.s (jstring (jget data "uri"))),
       ("dynamic_cover", ExtraVal.s (jstring (jget data "dynamic_cover"))),
       ("mark", ExtraVal.s (jstring (jget data "mark")))] }

/-! ### Kuaishou adapter (parsers/kuaishou.go) -/

/-- KuaishouParser.ExtractVideoID: a pass-through kept for interface
conformance, returning the input with a nil error for every input. -/
def kuaishouExtractVideoID (url : String) : Except String String :=
  Except.ok url

/-- KuaishouParser.ValidateRequest. -/
def kuaishouValidateRequest (req : ParseRequest) : Option String :=
  if req.videoID = "" ∧ req.url = "" then
    some "video_id 或 url 至少需要提供一个"
  else if req.platform ≠ "kuaishou" then
    some ("平台类型不匹配，期望: kuaishou，实际: " ++ req.platform)
  else none

/-- The work-type switch of KuaishouParser.parseVideoData. -/
def kuaishouVideoType (photoType : String) : VideoType :=
  if photoType = "视频" then VideoType.video
  else if photoType = "图片" then VideoType.image
  else VideoType.unknown

/-- The create-time block of KuaishouParser.parseVideoData: an empty or
unparsable timestamp falls back to time.Now (the now argument). -/
def kuaishouCreateTime (now : GoTime) (timestamp : String) : GoTime :=
  if timestamp ≠ "" then
    match goTimeParseLayout '_' [] timestamp with
    | some t => t
    | none => now
  else now

/-- The view-count block of KuaishouParser.parseVideoData: a missing field is
0; a JSON number is used directly; a string containing the ten-thousands
suffix has the suffix stripped, is parsed as a float and scaled by 10000 with
truncation; a plain digit string is parsed directly; anything else stays 0. -/
def kuaishouPlayCount (viewCount : Option JVal) : Int :=
  match viewCount with
  | none => 0
  | some v =>
    match v with
    | .jnum n => n
    | _ =>
      let viewStr := jstringV v
      if strContains viewStr "万" then
        match goParseFloat (removeChar viewStr '万') with
        | some p => scaleTrunc10000 p.1 p.2
        | none => 0
      else
        match goParseInt viewStr with
        | some n => n
        | none => 0

/-- The download-splitting block of KuaishouParser.parseVideoData: an empty
field yields no links; a field containing a space is split into fields;
otherwise the single link is kept. -/
def kuaishouDownloadURLs (downloadURL : String) : List String :=
  if downloadURL ≠ "" then
    if strContains downloadURL " " then goFields downloadURL
    else [downloadURL]
  else []

/-- The download-list loop shared in shape by the Kuaishou adapter and the
Xiaohongshu download-address loop: keep the non-empty links, tagged image
when the work is an image set and video otherwise. -/
def classifiedDownloads (vt : VideoType) (urls : List String) : List DownloadItem :=
  (urls.filter (fun u => u ≠ "")).map
    (fun u => ⟨u, if vt = VideoType.image then MediaType.image else MediaType.video⟩)

/-- The record KuaishouParser.parseVideoData builds from the data object. -/
def kuaishouBuild (now : GoTime) (videoData : JVal) : VideoInfo :=
  let videoID := jstring (jget videoData "detailID")
  let caption := jstring (jget videoData "caption")
  let photoType := jstring (jget videoData "photoType")
  let videoType := kuaishouVideoType photoType
  let downloadURLs := kuaishouDownloadURLs (jstring (jget videoData "download"))
  { id := videoID
    title := caption
    description := caption
    type := videoType
    platform := "kuaishou"
    url := "https://www.kuaishou.com/short-video/" ++ videoID
    createTime := kuaishouCreateTime now (jstring (jget videoData "timestamp"))
    duration := jstring (jget videoData "duration")
    downloads := classifiedDownloads videoType downloadURLs
    coverURL := jstring (jget videoData "coverUrl")
    width := 0
    height := 0
    author :=
      { uid := jstring (jget videoData "authorID")
        secUID := ""
        uniqueID := ""
        nickname := jstring (jget videoData "name")
        avatar := ""
        signature := ""
        age := 0 }
    stats :=
      { playCount := kuaishouPlayCount (jget videoData "viewCount")
        likeCount := jint (jget videoData "realLikeCount")
        commentCount := jint (jget videoData "commentCount")
        shareCount := jint (jget videoData "shareCount")
        collectCount := 0 }
    music := ⟨"", "", "", ""⟩
    tags := []
    extra :=
      [("downloadURLs", ExtraVal.slist downloadURLs),
       ("photoType", ExtraVal.s photoType)] }

/-- KuaishouParser.parseVideoData: reject a response whose message does not
contain the success word or that lacks the data field, otherwise normalize
the data object. -/
def kuaishouParseVideoData (now : GoTime) (root : JVal) : Except String VideoInfo :=
  let message := jstring (jget root "message")
  if strContains message "成功" then
    match jget root "data" with
    | some videoData => Except.ok (kuaishouBuild now videoData)
    | none => Except.error "响应中缺少data字段"
  else Except.error ("API返回错误: " ++ message)

/-! ### Xiaohongshu adapter (parsers/xiaohongshu.go) -/

/-- XiaohongshuParser.ExtractVideoID: a pass-through that rejects only the
empty string. -/
def xhsExtractVideoID (url : String) : Except String String :=
  if url = "" then Except.error "URL不能为空" else Except.ok url

/-- XiaohongshuParser.ValidateRequest. -/
def xhsValidateRequest (req : ParseRequest) : Option String :=
  if req.videoID = "" ∧ req.url = "" then
    some "video_id 或 url 至少需要提供一个"
  else if req.platform ≠ "xiaohongshu" then
    some ("平台类型不匹配，期望: xiaohongshu，实际: " ++ req.platform)
  else none

/-- The work-type switch of XiaohongshuParser.parseVideoData; the default is
video, unlike the other two adapters. -/
def xhsVideoType (workType : String) : VideoType :=
  if workType = "视频" then VideoType.video
  else if workType = "图文" then VideoType.image
  else VideoType.video

/-- The URL-collection loops of XiaohongshuParser.parseVideoData (download
addresses and gif addresses): an array contributes every element as text, any
other present value contributes its text. -/
def xhsURLList (o : Option JVal) : List String :=
  match o with
  | some (.jarr xs) => xs.map jstringV
  | some v => [jstringV v]
  | none => []

/-- The tag block of XiaohongshuParser.parseVideoData: an array contributes
every element, any other present non-empty text is split on commas. -/
def xhsTags (o : Option JVal) : List String :=
  match o with
  | some (.jarr xs) => xs.map jstringV
  | some v =>
      let s := jstringV v
      if s ≠ "" then s.splitOn "," else []
  | none => []

/-- The three layouts XiaohongshuParser.parseVideoData tries in order, first
success wins. -/
def xhsParsePublishTime (s : String) : Option GoTime :=
  match goTimeParseLayout ' ' [] s with
  | some t => some t
  | none =>
    match goTimeParseLayout 'T' ['Z'] s with
    | some t => some t
    | none => goTimeParseDate s

/-- The create-time block of XiaohongshuParser.parseVideoData: an empty
publish time, one that no layout parses, or one that parses to the zero time
all fall back to time.Now (the now argument). -/
def xhsCreateTime (now : GoTime) (publishTime : String) : GoTime :=
  if publishTime ≠ "" then
    match xhsParsePublishTime publishTime with
    | some t => if t = goZeroTime then now else t
    | none => now
  else now

/-- The record XiaohongshuParser.parseVideoData builds from the data object. -/
def xhsBuild (now : GoTime) (videoData : JVal) : VideoInfo :=
  let videoID := jstring (jget videoData "作品ID")
  let workType := jstring (jget videoData "作品类型")
  let publishTime := jstring (jget videoData "发布时间")
  let videoType := xhsVideoType workType
  let downloadURLs := xhsURLList (jget videoData "下载地址")
  let gifURLs := xhsURLList (jget videoData "动图地址")
  { id := videoID
    title := jstring (jget videoData "作品标题")
    description := jstring (jget videoData "作品描述")
    type := videoType
    platform := "xiaohongshu"
    url := jstring (jget videoData "作品链接")
    createTime := xhsCreateTime now publishTime
    duration := "00:00:00"
    downloads :=
      classifiedDownloads videoType downloadURLs ++
        (gifURLs.filter (fun u => u ≠ "")).map (fun u => ⟨u, MediaType.image⟩)
    coverURL :=
      match downloadURLs with
      | u :: _ => u
      | [] =>
        match gifURLs with
        | u :: _ => u
        | [] => ""
    width := 0
    height := 0
    author :=
      { uid := jstring (jget videoData "作者ID")
        secUID := ""
        uniqueID := ""
        nickname := jstring (jget videoData "作者昵称")
        avatar := ""
        signature := ""
        age := 0 }
    stats :=
      { playCount := 0
        likeCount := jint (jget videoData "点赞数量")
        commentCount := jint (jget videoData "评论数量")
        shareCount := jint (jget videoData "分享数量")
        collectCount := jint (jget videoData "收藏数量") }
    music := ⟨"", "", "", ""⟩
    tags := xhsTags (jget videoData "作品标签")
    extra :=
      [("publishTime", ExtraVal.s publishTime),
       ("updateTime", ExtraVal.s (jstring (jget videoData "最后更新时间"))),
       ("timestamp", ExtraVal.s (jstring (jget videoData "时间戳"))),
       ("workType", ExtraVal.s workType),
       ("downloadURLs", ExtraVal.slist downloadURLs),
       ("gifURLs", ExtraVal.slist gifURLs),
       ("authorLink", ExtraVal.s (jstring (jget videoData "作者链接")))] }

/-- XiaohongshuParser.parseVideoData: same envelope checks as the Kuaishou
adapter, then the normalization of the data object. -/
def xhsParseVideoData (now : GoTime) (root : JVal) : Except String VideoInfo :=
  let message := jstring (jget root "message")
  if strContains message "成功" then
    match jget root "data" with
    | some videoData => Except.ok (xhsBuild now videoData)
    | none => Except.error "响应中缺少data字段"
  else Except.error ("API返回错误: " ++ message)

/-! ### SDK registry and orchestrator (sdk.go)

A registered adapter is modelled by its platform key, an instance tag that
distinguishes separately constructed adapters, and its two request-level
methods; the context and timeout plumbing around parser.ParseVideo is network
scheduling outside the embedding, so the method is a function from the
request to its outcome. The registry map guarded by the reader-writer mutex
is modelled as a function from platform keys to optional adapters; the mutex
itself is concurrency machinery with no sequential content. -/

/-- A registered platform adapter as the orchestrator sees it. -/
structure ParserModel where
  platform : String
  tag : Nat
  validateReq : ParseRequest → Option String
  parseVid : ParseRequest → Except String VideoInfo

/-- The state of a VideoSDK value: the parser map and the two mutable
settings. -/
structure SDKState where
  parsers : String → Option ParserModel
  timeoutSeconds : Nat
  userAgent : String

/-- NewSDK: the empty registry with the default timeout and outbound
identification string. -/
def newSDK : SDKState :=
  { parsers := fun _ => none
    timeoutSeconds := 30
    userAgent := "Mozilla/5.0 (Windows NT 10.0; Win64; x64) AppleWebKit/537.36 (KHTML, like Gecko) Chrome/139.0.0.0 Safari/537.36" }

/-- VideoSDK.RegisterParser: reject a nil adapter or an empty platform key,
otherwise bind (or overwrite) the key in the map. -/
def registerParser (s : SDKState) (p : Option ParserModel) : Except String SDKState :=
  match p with
  | none => Except.error "parser cannot be nil"
  | some parser =>
      if parser.platform = "" then Except.error "parser platform cannot be empty"
      else
        Except.ok
          { s with parsers := fun k => if k = parser.platform then some parser else s.parsers k }

/-- The outcome of VideoSDK.ParseVideo: the response envelope, the returned
Go error (none for nil), and which adapter methods were invoked. -/
structure SDKParseResult where
  resp : ParseResponse
  err : Option String
  validateCalled : Bool
  parseCalled : Bool

/-- VideoSDK.ParseVideo: validate the request shape, look up the adapter,
delegate validation and parsing to it, and wrap the outcome into the
success/failure envelope; on success the platform key of the request is
stamped onto the returned data. The nil request of the Go signature is
modelled by Option; start, the envelope timestamp, is the now argument. -/
def sdkParseVideo (s : SDKState) (now : GoTime) (req : Option ParseRequest) :
    SDKParseResult :=
  match req with
  | none =>
      ⟨{ success := false, message := "", data := none,
         error := "request cannot be nil", time := now },
       some "request cannot be nil", false, false⟩
  | some r =>
      if r.platform = "" then
        ⟨{ success := false, message := "", data := none,
           error := "platform is required", time := now },
         some "platform is required", false, false⟩
      else
        match s.parsers r.platform with
        | none =>
            ⟨{ success := false, message := "", data := none,
               error := "platform " ++ r.platform ++ " is not supported", time := now },
             some ("platform " ++ r.platform ++ " is not supported"), false, false⟩
        | some parser =>
            match parser.validateReq r with
            | some e =>
                ⟨{ success := false, message := "", data := none,
                   error := "request validation failed: " ++ e, time := now },
                 some ("request validation failed: " ++ e), true, false⟩
            | none =>
                match parser.parseVid r with
                | Except.error e =>
                    ⟨{ success := false, message := "", data := none,
                       error := "failed to parse video: " ++ e, time := now },
                     some ("failed to parse video: " ++ e), true, true⟩
                | Except.ok videoInfo =>
                    ⟨{ success := true, message := "解析成功",
                       data := some { videoInfo with platform := r.platform },
                       error := "", time := now },
                     none, true, true⟩

/-! ### Concrete instances used by the witnesses -/

/-- A concrete unified record used by the demonstration adapters below. -/
def demoVideoInfo : VideoInfo := douyinParseVideoData (JVal.jobj [])

/-- A demonstration adapter bound to the douyin key that always succeeds. -/
def demoParserA : ParserModel :=
  ⟨"douyin", 1, fun _ => none, fun _ => Except.ok demoVideoInfo⟩

/-- A second demonstration adapter under the same key, distinguishable from
the first by its tag. -/
def demoParserB : ParserModel :=
  ⟨"douyin", 2, fun _ => none, fun _ => Except.error "upstream failure"⟩

/-- A registry state with the first demonstration adapter bound. -/
def demoSDK : SDKState :=
  { parsers := fun k => if k = "douyin" then some demoParserA else none
    timeoutSeconds := 30
    userAgent := "" }

/-! ### Helper lemmas -/

/-- A string with a non-empty left part is non-empty. -/
theorem append_ne_empty_left (s t : String) (h : s ≠ "") : s ++ t ≠ "" := by
  intro he
  apply h
  have hd : s.data ++ t.data = ([] : List Char) := congrArg String.data he
  have hs : s.data = [] := (List.append_eq_nil.mp hd).1
  cases s
  exact congrArg String.mk hs

/-- Inversion for a successful Kuaishou normalization: the envelope checks
passed and the result is the built record of the data object. -/
theorem kuaishou_ok_inv (now : GoTime) (root : JVal) (vi : VideoInfo)
    (h : kuaishouParseVideoData now root = Except.ok vi) :
    ∃ vd, jget root "data" = some vd ∧ vi = kuaishouBuild now vd := by
  simp only [kuaishouParseVideoData] at h
  split at h
  · split at h
    case h_1 vd heq => exact ⟨vd, heq, by injection h with h; exact h.symm⟩
    case h_2 => exact absurd h (by simp)
  · exact absurd h (by simp)

/-- Inversion for a successful Xiaohongshu normalization. -/
theorem xhs_ok_inv (now : GoTime) (root : JVal) (vi : VideoInfo)
    (h : xhsParseVideoData now root = Except.ok vi) :
    ∃ vd, jget root "data" = some vd ∧ vi = xhsBuild now vd := by
  simp only [xhsParseVideoData] at h
  split at h
  · split at h
    case h_1 vd heq => exact ⟨vd, heq, by injection h with h; exact h.symm⟩
    case h_2 => exact absurd h (by simp)
  · exact absurd h (by simp)

/-- Entries of the filtered download loop always carry a non-empty URL. -/
theorem mem_classifiedDownloads (vt : VideoType) (urls : List String)
    (d : DownloadItem) (h : d ∈ classifiedDownloads vt urls) : d.url ≠ "" := by
  simp only [classifiedDownloads, List.mem_map, List.mem_filter] at h
  obtain ⟨u, ⟨_, hu⟩, rfl⟩ := h
  simpa using hu

/-- On a non-array downloads field the Douyin download block is the single
guarded link. -/
theorem douyinDownloadList_not_array (o : Option JVal) (h : jisArray o = false) :
    douyinDownloadList o =
      if jexists o ∧ jstring o ≠ "" then [⟨jstring o, MediaType.video⟩] else [] := by
  match o with
  | none => rfl
  | some .jnull => rfl
  | some (.jbool b) => rfl
  | some (.jnum n) => rfl
  | some (.jstr s) => rfl
  | some (.jarr xs) => simp [jisArray] at h
  | some (.jobj fs) => rfl

/-! ### Claim C1 (corrected) -/

/-- Claim C1 fails on the Douyin adapter: on a payload whose create_time
field is absent (so the timestamp string is empty), the normalized record
keeps the zero time value as its creation time instead of the time the
normalization ran, contradicting the claim that the result is never a
zero/epoch value. -/
theorem claim_C1_counterexample :
    (douyinParseVideoData (JVal.jobj [])).createTime = goZeroTime := rfl

/-- Claim C1 as amended: when the upstream timestamp field is empty or fails
to parse under every attempted layout, the Kuaishou and Xiaohongshu adapters
set the creation time to the time the normalization ran, while the Douyin
adapter leaves it at the zero time value. -/
theorem claim_C1 :
    (∀ data : JVal,
      (jstring (jget data "create_time") = "" ∨
        goTimeParseLayout ' ' [] (jstring (jget data "create_time")) = none) →
      (douyinParseVideoData data).createTime = goZeroTime) ∧
    (∀ (now : GoTime) (root vd : JVal) (vi : VideoInfo),
      jget root "data" = some vd →
      kuaishouParseVideoData now root = Except.ok vi →
      (jstring (jget vd "timestamp") = "" ∨
        goTimeParseLayout '_' [] (jstring (jget vd "timestamp")) = none) →
      vi.createTime = now) ∧
    (∀ (now : GoTime) (root vd : JVal) (vi : VideoInfo),
      jget root "data" = some vd →
      xhsParseVideoData now root = Except.ok vi →
      (jstring (jget vd "发布时间") = "" ∨
        xhsParsePublishTime (jstring (jget vd "发布时间")) = none) →
      vi.createTime = now) := by
  refine ⟨?_, ?_, ?_⟩
  · intro data h
    show douyinCreateTime (jstring (jget data "create_time")) = goZeroTime
    unfold douyinCreateTime
    rcases h with h | h
    · simp [h]
    · by_cases hs : jstring (jget data "create_time") = ""
      · simp [hs]
      · simp [hs, h]
  · intro now root vd vi hd h hts
    obtain ⟨vd2, hd2, rfl⟩ := kuaishou_ok_inv now root vi h
    rw [hd] at hd2
    injection hd2 with hd2
    subst hd2
    show kuaishouCreateTime now (jstring (jget vd "timestamp")) = now
    unfold kuaishouCreateTime
    rcases hts with h | h
    · simp [h]
    · by_cases hs : jstring (jget vd "timestamp") = ""
      · simp [hs]
      · simp [hs, h]
  · intro now root vd vi hd h hts
    obtain ⟨vd2, hd2, rfl⟩ := xhs_ok_inv now root vi h
    rw [hd] at hd2
    injection hd2 with hd2
    subst hd2
    show xhsCreateTime now (jstring (jget vd "发布时间")) = now
    unfold xhsCreateTime
    rcases hts with h | h
    · simp [h]
    · by_cases hs : jstring (jget vd "发布时间") = ""
      · simp [hs]
      · simp [hs, h]

/-- Witness for claim_C1: an unparsable timestamp string leaves the Douyin
creation time at zero and sends the Kuaishou and Xiaohongshu creation times
to the normalization instant. -/
theorem claim_C1_witness :
    (jstring (jget (JVal.jobj [("create_time", JVal.jstr "昨天")]) "create_time") = "" ∨
      goTimeParseLayout ' ' [] "昨天" = none) ∧
    (douyinParseVideoData (JVal.jobj [("create_time", JVal.jstr "昨天")])).createTime
      = goZeroTime ∧
    (kuaishouBuild ⟨2024, 6, 7, 8, 9, 10⟩
        (JVal.jobj [("timestamp", JVal.jstr "昨天")])).createTime = ⟨2024, 6, 7, 8, 9, 10⟩ ∧
    (xhsBuild ⟨2024, 6, 7, 8, 9, 10⟩
        (JVal.jobj [("发布时间", JVal.jstr "昨天")])).createTime = ⟨2024, 6, 7, 8, 9, 10⟩ := by
  refine ⟨Or.inr (by decide), ?_, ?_, ?_⟩
  · exact claim_C1.1 (JVal.jobj [("create_time", JVal.jstr "昨天")]) (Or.inr (by decide))
  · exact claim_C1.2.1 ⟨2024, 6, 7, 8, 9, 10⟩
      (JVal.jobj [("message", JVal.jstr "成功"),
        ("data", JVal.jobj [("timestamp", JVal.jstr "昨天")])])
      (JVal.jobj [("timestamp", JVal.jstr "昨天")]) _ rfl rfl (Or.inr (by decide))
  · exact claim_C1.2.2 ⟨2024, 6, 7, 8, 9, 10⟩
      (JVal.jobj [("message", JVal.jstr "成功"),
        ("data", JVal.jobj [("发布时间", JVal.jstr "昨天")])])
      (JVal.jobj [("发布时间", JVal.jstr "昨天")]) _ rfl rfl (Or.inr (by decide))

/-! ### Claim C2 (confirmed) -/

/-- Claim C2: in the Kuaishou view-count parsing a numeric upstream field is
used directly, the string 203.7万 yields exactly 2037000, the plain digit
string 15000 yields 15000, the empty string and any string that neither
parses as an integer (without the suffix) nor as a float (with the suffix
stripped) yield 0; the function is total, so no input errors, and it is
exactly the play count stored by the normalization. -/
theorem claim_C2 :
    (∀ n : Int, kuaishouPlayCount (some (JVal.jnum n)) = n) ∧
    kuaishouPlayCount (some (JVal.jstr "203.7万")) = 2037000 ∧
    kuaishouPlayCount (some (JVal.jstr "15000")) = 15000 ∧
    kuaishouPlayCount (some (JVal.jstr "")) = 0 ∧
    kuaishouPlayCount none = 0 ∧
    (∀ s : String, strContains s "万" = false → goParseInt s = none →
      kuaishouPlayCount (some (JVal.jstr s)) = 0) ∧
    (∀ s : String, strContains s "万" = true → goParseFloat (removeChar s '万') = none →
      kuaishouPlayCount (some (JVal.jstr s)) = 0) ∧
    (∀ (now : GoTime) (vd : JVal),
      (kuaishouBuild now vd).stats.playCount = kuaishouPlayCount (jget vd "viewCount")) := by
  refine ⟨fun n => rfl, by decide, by decide, rfl, rfl, ?_, ?_, fun now vd => rfl⟩
  · intro s h1 h2
    simp [kuaishouPlayCount, jstringV, h1, h2]
  · intro s h1 h2
    simp [kuaishouPlayCount, jstringV, h1, h2]

/-- Witness for claim_C2: two concrete garbage strings, one without and one
with the ten-thousands suffix, both yield 0. -/
theorem claim_C2_witness :
    strContains "N/A" "万" = false ∧ goParseInt "N/A" = none ∧
    kuaishouPlayCount (some (JVal.jstr "N/A")) = 0 ∧
    strContains "约万" "万" = true ∧ goParseFloat (removeChar "约万" '万') = none ∧
    kuaishouPlayCount (some (JVal.jstr "约万")) = 0 := by
  obtain ⟨-, -, -, -, -, h6, h7, -⟩ := claim_C2
  exact ⟨by decide, by decide, h6 "N/A" (by decide) (by decide),
         by decide, by decide, h7 "约万" (by decide) (by decide)⟩

/-! ### Claim C3 (corrected) -/

/-- Claim C3 fails on the Douyin adapter: when the downloads field is an
array, its entries are appended without any filtering, so an empty-string
element of the array becomes a download entry with an empty URL. -/
theorem claim_C3_counterexample :
    (douyinParseVideoData (JVal.jobj [("downloads", JVal.jarr [JVal.jstr ""])])).downloads =
      [⟨"", MediaType.video⟩] := rfl

/-- Claim C3 as amended: every download entry produced by the Kuaishou and
Xiaohongshu adapters has a non-empty URL (the loops skip empty strings,
though whitespace-only URLs are kept); the Douyin adapter guarantees this
only in the non-array single-link case, while its array case appends entries
unfiltered. -/
theorem claim_C3 :
    (∀ (now : GoTime) (root : JVal) (vi : VideoInfo),
      kuaishouParseVideoData now root = Except.ok vi → ∀ d ∈ vi.downloads, d.url ≠ "") ∧
    (∀ (now : GoTime) (root : JVal) (vi : VideoInfo),
      xhsParseVideoData now root = Except.ok vi → ∀ d ∈ vi.downloads, d.url ≠ "") ∧
    (∀ data : JVal, jisArray (jget data "downloads") = false →
      ∀ d ∈ (douyinParseVideoData data).downloads, d.url ≠ "") := by
  refine ⟨?_, ?_, ?_⟩
  · intro now root vi h d hd
    obtain ⟨vd, -, rfl⟩ := kuaishou_ok_inv now root vi h
    exact mem_classifiedDownloads _ _ _ hd
  · intro now root vi h d hd
    obtain ⟨vd, -, rfl⟩ := xhs_ok_inv now root vi h
    have hd2 : d ∈ classifiedDownloads (xhsVideoType (jstring (jget vd "作品类型")))
        (xhsURLList (jget vd "下载地址")) ++
        ((xhsURLList (jget vd "动图地址")).filter (fun u => u ≠ "")).map
          (fun u => ⟨u, MediaType.image⟩) := hd
    rcases List.mem_append.mp hd2 with hmem | hmem
    · exact mem_classifiedDownloads _ _ _ hmem
    · simp only [List.mem_map, List.mem_filter] at hmem
      obtain ⟨u, ⟨-, hu⟩, rfl⟩ := hmem
      simpa using hu
  · intro data hna d hd
    have hd2 : d ∈ douyinDownloadList (jget data "downloads") := hd
    rw [douyinDownloadList_not_array _ hna] at hd2
    split at hd2
    case isTrue hc =>
      simp only [List.mem_singleton] at hd2
      subst hd2
      exact hc.2
    case isFalse => exact absurd hd2 (by simp)

/-- Witness for claim_C3: concrete payloads for the three guaranteed cases,
with the produced entries carrying their non-empty URLs. -/
theorem claim_C3_witness :
    (⟨"x.mp4", MediaType.video⟩ : DownloadItem).url ≠ "" ∧
    (⟨"y.mp4", MediaType.video⟩ : DownloadItem).url ≠ "" ∧
    (⟨"z.mp4", MediaType.video⟩ : DownloadItem).url ≠ "" := by
  refine ⟨?_, ?_, ?_⟩
  · exact claim_C3.1 ⟨2024, 1, 2, 3, 4, 5⟩
      (JVal.jobj [("message", JVal.jstr "成功"),
        ("data", JVal.jobj [("download", JVal.jstr "x.mp4")])]) _ rfl
      ⟨"x.mp4", MediaType.video⟩ (by decide)
  · exact claim_C3.2.1 ⟨2024, 1, 2, 3, 4, 5⟩
      (JVal.jobj [("message", JVal.jstr "成功"),
        ("data", JVal.jobj [("下载地址", JVal.jstr "y.mp4")])]) _ rfl
      ⟨"y.mp4", MediaType.video⟩ (by decide)
  · exact claim_C3.2.2 (JVal.jobj [("downloads", JVal.jstr "z.mp4")]) (by decide)
      ⟨"z.mp4", MediaType.video⟩ (by decide)

/-! ### Claim C4 (confirmed) -/

/-- Claim C4: each adapter maps the upstream work-type label through its
fixed table, and an unrecognized label falls to the platform default, which
is unknown for Douyin and Kuaishou but video for Xiaohongshu; the mapped
value is exactly the kind stored by each normalization. -/
theorem claim_C4 :
    (douyinVideoType "视频" = VideoType.video ∧ douyinVideoType "图集" = VideoType.image ∧
     douyinVideoType "实况" = VideoType.live ∧
     (∀ s, s ≠ "视频" → s ≠ "图集" → s ≠ "实况" → douyinVideoType s = VideoType.unknown) ∧
     (∀ data, (douyinParseVideoData data).type = douyinVideoType (jstring (jget data "type")))) ∧
    (kuaishouVideoType "视频" = VideoType.video ∧ kuaishouVideoType "图片" = VideoType.image ∧
     (∀ s, s ≠ "视频" → s ≠ "图片" → kuaishouVideoType s = VideoType.unknown) ∧
     (∀ now vd, (kuaishouBuild now vd).type = kuaishouVideoType (jstring (jget vd "photoType")))) ∧
    (xhsVideoType "视频" = VideoType.video ∧ xhsVideoType "图文" = VideoType.image ∧
     (∀ s, s ≠ "视频" → s ≠ "图文" → xhsVideoType s = VideoType.video) ∧
     (∀ now vd, (xhsBuild now vd).type = xhsVideoType (jstring (jget vd "作品类型")))) := by
  refine ⟨⟨rfl, rfl, rfl, ?_, fun data => rfl⟩, ⟨rfl, rfl, ?_, fun now vd => rfl⟩,
    ⟨rfl, rfl, ?_, fun now vd => rfl⟩⟩
  · intro s h1 h2 h3; simp [douyinVideoType, h1, h2, h3]
  · intro s h1 h2; simp [kuaishouVideoType, h1, h2]
  · intro s h1 h2; simp [xhsVideoType, h1, h2]

/-- Witness for claim_C4: one unrecognized label goes to the per-platform
default of each adapter. -/
theorem claim_C4_witness :
    douyinVideoType "直播" = VideoType.unknown ∧
    kuaishouVideoType "直播" = VideoType.unknown ∧
    xhsVideoType "直播" = VideoType.video :=
  ⟨claim_C4.1.2.2.2.1 "直播" (by decide) (by decide) (by decide),
   claim_C4.2.1.2.2.1 "直播" (by decide) (by decide),
   claim_C4.2.2.2.2.1 "直播" (by decide) (by decide)⟩

/-! ### Claim C5 (corrected) -/

/-- Claim C5 fails in one clause: a URL that matches a canonical pattern but
also contains the short-link domain as a substring is still routed through
the resolve call, because the substring test runs first; here the URL
matches the canonical video pattern (extracting ID 123), yet the resolve
call is made and direct extraction is not attempted. -/
theorem claim_C5_counterexample :
    douyinExtractVideoID "https://www.douyin.com/video/123?from=v.douyin.com" = some "123" ∧
    (douyinResolveVideoID (fun _ => Except.error "resolve unavailable")
      ⟨"douyin", "", "https://www.douyin.com/video/123?from=v.douyin.com", "", "", false⟩).resolveCalled
        = true ∧
    (douyinResolveVideoID (fun _ => Except.error "resolve unavailable")
      ⟨"douyin", "", "https://www.douyin.com/video/123?from=v.douyin.com", "", "", false⟩).extractCalled
        = false :=
  ⟨by decide, by decide, by decide⟩

/-- Claim C5 as amended: a non-empty URL containing the short-link domain is
resolved first and extraction runs only on the resolved URL (with the
unresolvable-URL error when no pattern matches it); a non-empty URL not
containing the short-link domain is extracted directly without a resolve
call, succeeding exactly when a canonical pattern matches; an empty URL with
an explicit video ID uses the ID as-is with neither resolution nor
extraction. -/
theorem claim_C5 :
    (∀ (resolve : String → Except String String) (req : ParseRequest),
      req.url ≠ "" → strContains req.url "v.douyin.com" = true →
      (douyinResolveVideoID resolve req).resolveCalled = true ∧
      (∀ e, resolve req.url = Except.error e →
        douyinResolveVideoID resolve req =
          ⟨Except.error ("解析短链接失败: " ++ e), true, false⟩) ∧
      (∀ full, resolve req.url = Except.ok full →
        (douyinResolveVideoID resolve req).extractCalled = true ∧
        (∀ id, douyinExtractVideoID full = some id →
          (douyinResolveVideoID resolve req).idResult = Except.ok id) ∧
        (douyinExtractVideoID full = none →
          (douyinResolveVideoID resolve req).idResult =
            Except.error ("从完整URL提取视频ID失败: " ++ ("无法从URL中提取视频ID: " ++ full))))) ∧
    (∀ (resolve : String → Except String String) (req : ParseRequest),
      req.url ≠ "" → strContains req.url "v.douyin.com" = false →
      (douyinResolveVideoID resolve req).resolveCalled = false ∧
      (douyinResolveVideoID resolve req).extractCalled = true ∧
      (∀ id, douyinExtractVideoID req.url = some id →
        (douyinResolveVideoID resolve req).idResult = Except.ok id) ∧
      (douyinExtractVideoID req.url = none →
        (douyinResolveVideoID resolve req).idResult =
          Except.error ("从URL提取视频ID失败: " ++ ("无法从URL中提取视频ID: " ++ req.url)))) ∧
    (∀ (resolve : String → Except String String) (req : ParseRequest),
      req.url = "" → req.videoID ≠ "" →
      douyinResolveVideoID resolve req = ⟨Except.ok req.videoID, false, false⟩) := by
  refine ⟨?_, ?_, ?_⟩
  · intro resolve req hu hc
    refine ⟨?_, ?_, ?_⟩
    · cases hres : resolve req.url with
      | error e => simp [douyinResolveVideoID, hu, hc, hres]
      | ok full =>
          cases hex : douyinExtractVideoIDE full with
          | error e => simp [douyinResolveVideoID, hu, hc, hres, hex]
          | ok id => simp [douyinResolveVideoID, hu, hc, hres, hex]
    · intro e hres
      simp [douyinResolveVideoID, hu, hc, hres]
    · intro full hres
      refine ⟨?_, ?_, ?_⟩
      · cases hex : douyinExtractVideoIDE full with
        | error e => simp [douyinResolveVideoID, hu, hc, hres, hex]
        | ok id => simp [douyinResolveVideoID, hu, hc, hres, hex]
      · intro id hid
        have hex : douyinExtractVideoIDE full = Except.ok id := by
          unfold douyinExtractVideoIDE; rw [hid]
        simp [douyinResolveVideoID, hu, hc, hres, hex]
      · intro hnone
        have hex : douyinExtractVideoIDE full =
            Except.error ("无法从URL中提取视频ID: " ++ full) := by
          unfold douyinExtractVideoIDE; rw [hnone]
        simp [douyinResolveVideoID, hu, hc, hres, hex]
  · intro resolve req hu hc
    refine ⟨?_, ?_, ?_, ?_⟩
    · cases hex : douyinExtractVideoIDE req.url with
      | error e => simp [douyinResolveVideoID, hu, hc, hex]
      | ok id => simp [douyinResolveVideoID, hu, hc, hex]
    · cases hex : douyinExtractVideoIDE req.url with
      | error e => simp [douyinResolveVideoID, hu, hc, hex]
      | ok id => simp [douyinResolveVideoID, hu, hc, hex]
    · intro id hid
      have hex : douyinExtractVideoIDE req.url = Except.ok id := by
        unfold douyinExtractVideoIDE; rw [hid]
      simp [douyinResolveVideoID, hu, hc, hex]
    · intro hnone
      have hex : douyinExtractVideoIDE req.url =
          Except.error ("无法从URL中提取视频ID: " ++ req.url) := by
        unfold douyinExtractVideoIDE; rw [hnone]
      simp [douyinResolveVideoID, hu, hc, hex]
  · intro resolve req hu hv
    unfold douyinResolveVideoID
    simp [hu, hv]

/-- Witness for claim_C5: a short link routed through a successful resolve
and extracted from the resolved URL, a canonical URL extracted directly with
no resolve call, and an explicit video ID used as-is. -/
theorem claim_C5_witness :
    (douyinResolveVideoID (fun _ => Except.ok "https://www.douyin.com/video/777")
      ⟨"douyin", "", "https://v.douyin.com/abc", "", "", false⟩).resolveCalled = true ∧
    (douyinResolveVideoID (fun _ => Except.ok "https://www.douyin.com/video/777")
      ⟨"douyin", "", "https://v.douyin.com/abc", "", "", false⟩).idResult = Except.ok "777" ∧
    (douyinResolveVideoID (fun _ => Except.error "x")
      ⟨"douyin", "", "https://www.douyin.com/video/888", "", "", false⟩).resolveCalled = false ∧
    (douyinResolveVideoID (fun _ => Except.error "x")
      ⟨"douyin", "", "https://www.douyin.com/video/888", "", "", false⟩).idResult
        = Except.ok "888" ∧
    douyinResolveVideoID (fun _ => Except.error "x") ⟨"douyin", "999", "", "", "", false⟩ =
      ⟨Except.ok "999", false, false⟩ := by
  obtain ⟨h1, h2, h3⟩ := claim_C5
  obtain ⟨ha, -, hb⟩ := h1 (fun _ => Except.ok "https://www.douyin.com/video/777")
    ⟨"douyin", "", "https://v.douyin.com/abc", "", "", false⟩ (by decide) (by decide)
  obtain ⟨-, hc, -⟩ := hb "https://www.douyin.com/video/777" rfl
  obtain ⟨hd, -, he, -⟩ := h2 (fun _ => Except.error "x")
    ⟨"douyin", "", "https://www.douyin.com/video/888", "", "", false⟩ (by decide) (by decide)
  exact ⟨ha, hc "777" (by decide), hd, he "888" (by decide),
    h3 (fun _ => Except.error "x") ⟨"douyin", "999", "", "", "", false⟩ rfl (by decide)⟩

/-! ### Claim C6 (confirmed) -/

/-- Claim C6: the orchestrator always returns an envelope in which success,
a populated error string and present data never coexist; on every failure
path success is false, the error string is non-empty, the data is absent and
a non-nil error value is returned; on success the error string is empty, the
returned error value is nil, the data is present, and its platform field is
the platform key of the request regardless of what the adapter set. -/
theorem claim_C6 :
    ∀ (s : SDKState) (now : GoTime) (req : Option ParseRequest),
      ((sdkParseVideo s now req).resp.success = false →
        (sdkParseVideo s now req).resp.data = none ∧
        (sdkParseVideo s now req).resp.error ≠ "" ∧
        (sdkParseVideo s now req).err ≠ none) ∧
      ((sdkParseVideo s now req).resp.success = true →
        (sdkParseVideo s now req).resp.error = "" ∧
        (sdkParseVideo s now req).err = none ∧
        ∃ (r : ParseRequest) (vi : VideoInfo), req = some r ∧
          (sdkParseVideo s now req).resp.data = some vi ∧ vi.platform = r.platform) := by
  intro s now req
  cases req with
  | none =>
      refine ⟨fun _ => ⟨rfl, ?_, ?_⟩, fun h => absurd h (by simp [sdkParseVideo])⟩
      · simp [sdkParseVideo]
      · simp [sdkParseVideo]
  | some r =>
      by_cases hp : r.platform = ""
      · refine ⟨fun _ => ⟨?_, ?_, ?_⟩, fun h => absurd h ?_⟩
        · simp [sdkParseVideo, hp]
        · simp [sdkParseVideo, hp]
        · simp [sdkParseVideo, hp]
        · simp [sdkParseVideo, hp]
      · cases hl : s.parsers r.platform with
        | none =>
            refine ⟨fun _ => ⟨?_, ?_, ?_⟩, fun h => absurd h ?_⟩
            · simp [sdkParseVideo, hp, hl]
            · simp only [sdkParseVideo, hp, hl]
              exact append_ne_empty_left _ _ (append_ne_empty_left _ _ (by decide))
            · simp [sdkParseVideo, hp, hl]
            · simp [sdkParseVideo, hp, hl]
        | some parser =>
            cases hv : parser.validateReq r with
            | some e =>
                refine ⟨fun _ => ⟨?_, ?_, ?_⟩, fun h => absurd h ?_⟩
                · simp [sdkParseVideo, hp, hl, hv]
                · simp only [sdkParseVideo, hp, hl, hv]
                  exact append_ne_empty_left _ _ (by decide)
                · simp [sdkParseVideo, hp, hl, hv]
                · simp [sdkParseVideo, hp, hl, hv]
            | none =>
                cases hpv : parser.parseVid r with
                | error e =>
                    refine ⟨fun _ => ⟨?_, ?_, ?_⟩, fun h => absurd h ?_⟩
                    · simp [sdkParseVideo, hp, hl, hv, hpv]
                    · simp only [sdkParseVideo, hp, hl, hv, hpv]
                      exact append_ne_empty_left _ _ (by decide)
                    · simp [sdkParseVideo, hp, hl, hv, hpv]
                    · simp [sdkParseVideo, hp, hl, hv, hpv]
                | ok vi =>
                    refine ⟨fun h => absurd h ?_, fun _ => ⟨?_, ?_, ?_⟩⟩
                    · simp [sdkParseVideo, hp, hl, hv, hpv]
                    · simp [sdkParseVideo, hp, hl, hv, hpv]
                    · simp [sdkParseVideo, hp, hl, hv, hpv]
                    · refine ⟨r, { vi with platform := r.platform }, rfl, ?_, rfl⟩
                      simp [sdkParseVideo, hp, hl, hv, hpv]

/-- Witness for claim_C6: the nil-request failure envelope of the empty
registry, and the success envelope of a registry holding the demonstration
adapter, whose data carries the platform key of the request. -/
theorem claim_C6_witness :
    ((sdkParseVideo newSDK ⟨2024, 1, 2, 3, 4, 5⟩ none).resp.data = none ∧
     (sdkParseVideo newSDK ⟨2024, 1, 2, 3, 4, 5⟩ none).resp.error ≠ "" ∧
     (sdkParseVideo newSDK ⟨2024, 1, 2, 3, 4, 5⟩ none).err ≠ none) ∧
    ((sdkParseVideo demoSDK ⟨2024, 1, 2, 3, 4, 5⟩
        (some ⟨"douyin", "1", "", "", "", false⟩)).resp.error = "" ∧
     (sdkParseVideo demoSDK ⟨2024, 1, 2, 3, 4, 5⟩
        (some ⟨"douyin", "1", "", "", "", false⟩)).err = none ∧
     ∃ (r : ParseRequest) (vi : VideoInfo),
       (some ⟨"douyin", "1", "", "", "", false⟩ : Option ParseRequest) = some r ∧
       (sdkParseVideo demoSDK ⟨2024, 1, 2, 3, 4, 5⟩
          (some ⟨"douyin", "1", "", "", "", false⟩)).resp.data = some vi ∧
       vi.platform = r.platform) :=
  ⟨(claim_C6 newSDK ⟨2024, 1, 2, 3, 4, 5⟩ none).1 rfl,
   (claim_C6 demoSDK ⟨2024, 1, 2, 3, 4, 5⟩ (some ⟨"douyin", "1", "", "", "", false⟩)).2 rfl⟩

/-! ### Claim C7 (confirmed) -/

/-- Claim C7: a nil request or an empty platform key yields a failure
envelope with no adapter method invoked, and a platform key with no
registered adapter yields the unsupported-platform failure without invoking
the validation or parsing method of any adapter. -/
theorem claim_C7 :
    ∀ (s : SDKState) (now : GoTime),
      ((sdkParseVideo s now none).resp.success = false ∧
       (sdkParseVideo s now none).validateCalled = false ∧
       (sdkParseVideo s now none).parseCalled = false) ∧
      (∀ r : ParseRequest, r.platform = "" →
        (sdkParseVideo s now (some r)).resp.success = false ∧
        (sdkParseVideo s now (some r)).validateCalled = false ∧
        (sdkParseVideo s now (some r)).parseCalled = false) ∧
      (∀ r : ParseRequest, r.platform ≠ "" → s.parsers r.platform = none →
        (sdkParseVideo s now (some r)).resp.success = false ∧
        (sdkParseVideo s now (some r)).resp.error =
          "platform " ++ r.platform ++ " is not supported" ∧
        (sdkParseVideo s now (some r)).validateCalled = false ∧
        (sdkParseVideo s now (some r)).parseCalled = false) := by
  intro s now
  refine ⟨⟨rfl, rfl, rfl⟩, ?_, ?_⟩
  · intro r hp
    refine ⟨?_, ?_, ?_⟩ <;> simp [sdkParseVideo, hp]
  · intro r hp hl
    refine ⟨?_, ?_, ?_, ?_⟩ <;> simp [sdkParseVideo, hp, hl]

/-- Witness for claim_C7: the empty-platform and unregistered-platform
requests against the demonstration registry. -/
theorem claim_C7_witness :
    ((sdkParseVideo demoSDK ⟨2024, 1, 2, 3, 4, 5⟩
        (some ⟨"", "1", "", "", "", false⟩)).resp.success = false ∧
     (sdkParseVideo demoSDK ⟨2024, 1, 2, 3, 4, 5⟩
        (some ⟨"", "1", "", "", "", false⟩)).validateCalled = false ∧
     (sdkParseVideo demoSDK ⟨2024, 1, 2, 3, 4, 5⟩
        (some ⟨"", "1", "", "", "", false⟩)).parseCalled = false) ∧
    ((sdkParseVideo demoSDK ⟨2024, 1, 2, 3, 4, 5⟩
        (some ⟨"bilibili", "1", "", "", "", false⟩)).resp.success = false ∧
     (sdkParseVideo demoSDK ⟨2024, 1, 2, 3, 4, 5⟩
        (some ⟨"bilibili", "1", "", "", "", false⟩)).resp.error =
       "platform " ++ "bilibili" ++ " is not supported" ∧
     (sdkParseVideo demoSDK ⟨2024, 1, 2, 3, 4, 5⟩
        (some ⟨"bilibili", "1", "", "", "", false⟩)).validateCalled = false ∧
     (sdkParseVideo demoSDK ⟨2024, 1, 2, 3, 4, 5⟩
        (some ⟨"bilibili", "1", "", "", "", false⟩)).parseCalled = false) :=
  ⟨(claim_C7 demoSDK ⟨2024, 1, 2, 3, 4, 5⟩).2.1 ⟨"", "1", "", "", "", false⟩ rfl,
   (claim_C7 demoSDK ⟨2024, 1, 2, 3, 4, 5⟩).2.2 ⟨"bilibili", "1", "", "", "", false⟩
     (by decide) rfl⟩

/-! ### Claim C8 (confirmed) -/

/-- Claim C8: registering an adapter with a non-empty platform key succeeds
and a lookup of that key returns exactly that instance; registering a second
adapter under the same key succeeds without error and replaces the binding,
so a subsequent lookup returns the second instance. -/
theorem claim_C8 :
    ∀ (s : SDKState) (p : ParserModel), p.platform ≠ "" →
      ∃ s1, registerParser s (some p) = Except.ok s1 ∧
        s1.parsers p.platform = some p ∧
        ∀ q : ParserModel, q.platform = p.platform →
          ∃ s2, registerParser s1 (some q) = Except.ok s2 ∧
            s2.parsers p.platform = some q := by
  intro s p hp
  have h1 : registerParser s (some p) = Except.ok
      { s with parsers := fun k => if k = p.platform then some p else s.parsers k } := by
    simp [registerParser, hp]
  refine ⟨_, h1, by simp, ?_⟩
  intro q hq
  have hq2 : q.platform ≠ "" := by rw [hq]; exact hp
  have h2 : registerParser
      { s with parsers := fun k => if k = p.platform then some p else s.parsers k }
      (some q) = Except.ok
      { s with parsers := fun k => if k = q.platform then some q
          else if k = p.platform then some p else s.parsers k } := by
    simp [registerParser, hq2]
  refine ⟨_, h2, ?_⟩
  simp [hq]

/-- Witness for claim_C8: the two demonstration adapters under the douyin
key, the second replacing the first. -/
theorem claim_C8_witness :
    ∃ s1, registerParser newSDK (some demoParserA) = Except.ok s1 ∧
      s1.parsers "douyin" = some demoParserA ∧
      ∃ s2, registerParser s1 (some demoParserB) = Except.ok s2 ∧
        s2.parsers "douyin" = some demoParserB := by
  obtain ⟨s1, h1, h2, h3⟩ := claim_C8 newSDK demoParserA (by decide)
  obtain ⟨s2, h4, h5⟩ := h3 demoParserB rfl
  exact ⟨s1, h1, h2, s2, h4, h5⟩

/-! ### Claim C9 (confirmed) -/

/-- Claim C9: the Douyin and Kuaishou adapters copy the same upstream
caption field into both the title and the description, so the two fields are
always equal in their outputs. -/
theorem claim_C9 :
    (∀ data : JVal,
      (douyinParseVideoData data).title = (douyinParseVideoData data).description) ∧
    (∀ (now : GoTime) (root : JVal) (vi : VideoInfo),
      kuaishouParseVideoData now root = Except.ok vi → vi.title = vi.description) := by
  constructor
  · intro data; rfl
  · intro now root vi h
    obtain ⟨vd, -, rfl⟩ := kuaishou_ok_inv now root vi h
    rfl

/-- Witness for claim_C9: a successful Kuaishou normalization with equal
title and description. -/
theorem claim_C9_witness :
    (kuaishouBuild ⟨2024, 1, 2, 3, 4, 5⟩ (JVal.jobj [])).title =
      (kuaishouBuild ⟨2024, 1, 2, 3, 4, 5⟩ (JVal.jobj [])).description :=
  claim_C9.2 ⟨2024, 1, 2, 3, 4, 5⟩
    (JVal.jobj [("message", JVal.jstr "成功"), ("data", JVal.jobj [])]) _ rfl

/-! ### Claim C10 (confirmed) -/

/-- Claim C10: the Kuaishou pass-through returns its input with a nil error
for every input including the empty string, while the Xiaohongshu
pass-through errors exactly on the empty string and otherwise returns its
input with a nil error. -/
theorem claim_C10 :
    (∀ url : String, kuaishouExtractVideoID url = Except.ok url) ∧
    xhsExtractVideoID "" = Except.error "URL不能为空" ∧
    (∀ url : String, url ≠ "" → xhsExtractVideoID url = Except.ok url) := by
  refine ⟨fun url => rfl, rfl, fun url h => ?_⟩
  simp [xhsExtractVideoID, h]

/-- Witness for claim_C10: a non-empty URL passes through the Xiaohongshu
extraction unchanged. -/
theorem claim_C10_witness :
    xhsExtractVideoID "https://www.xiaohongshu.com/explore/abc" =
      Except.ok "https://www.xiaohongshu.com/explore/abc" :=
  claim_C10.2.2 "https://www.xiaohongshu.com/explore/abc" (by decide)

end VideoParser
